import Mathlib

set_option maxHeartbeats 1000000
set_option maxRecDepth 8000

namespace Pulumi

/-- Property maps are ordered mappings of property keys to values
(resource.PropertyMap). We model them as association lists from keys to
numeric values; DeepEquals becomes list equality. -/
abbrev PropertyMap := List (String × Nat)

/-- Resource status returned by providers and by step application
(resource.Status): StatusOK, StatusUnknown, StatusPartialFailure. -/
inductive Status where
  | ok
  | unknown
  | partFail
  deriving DecidableEq, Repr

/-- Errors returned from provider RPCs: a recoverable plugin.InitError
carrying Reasons, or any other error carrying a message. -/
inductive ProvErr where
  | init (reasons : List String)
  | other (msg : String)
  deriving DecidableEq, Repr

/-- Errors returned by Step.Apply: a provider error propagated verbatim, the
typed deleteProtectedError carrying the URN, or an engine-made message error
(fmt.Errorf and the like). -/
inductive StepError where
  | provider (e : ProvErr)
  | deleteProtected (urn : String)
  | message (msg : String)
  deriving DecidableEq, Repr

/-- Per-operation duration budgets (resource.CustomTimeouts). -/
structure CustomTimeouts where
  create : Nat
  update : Nat
  delete : Nat
  deriving DecidableEq, Repr

/-- A resource state record (resource.State). Presentation-only metadata
fields that no modelled operation consults (PropertyDependencies,
AdditionalSecretOutputs, Aliases) are omitted; every field read or written by
the step code in src/pkg/resource/deploy/step.go is present. Timestamps are
modelled as natural-number instants. -/
structure State where
  type : String
  urn : String
  custom : Bool
  delete : Bool
  id : String
  inputs : PropertyMap
  outputs : PropertyMap
  parent : String
  protect : Bool
  external : Bool
  dependencies : List String
  initErrors : List String
  provider : String
  pendingReplacement : Bool
  customTimeouts : CustomTimeouts
  importID : String
  retainOnDelete : Bool
  deletedWith : String
  created : Option Nat
  modified : Option Nat
  sourcePosition : String
  deriving DecidableEq, Repr

/-- A state with every field empty, used to build concrete test states. -/
def State.empty : State where
  type := ""
  urn := ""
  custom := false
  delete := false
  id := ""
  inputs := []
  outputs := []
  parent := ""
  protect := false
  external := false
  dependencies := []
  initErrors := []
  provider := ""
  pendingReplacement := false
  customTimeouts := { create := 0, update := 0, delete := 0 }
  importID := ""
  retainOnDelete := false
  deletedWith := ""
  created := none
  modified := none
  sourcePosition := ""

/-- Mirror of resource.NewState as called by RefreshStep.Apply and
ImportStep.Apply, listing the fields in the argument order of the Go call. -/
def NewState (type urn : String) (custom delete : Bool) (id : String)
    (inputs outputs : PropertyMap) (parent : String) (protect external : Bool)
    (dependencies initErrors : List String) (provider : String)
    (pendingReplacement : Bool) (customTimeouts : CustomTimeouts)
    (importID : String) (retainOnDelete : Bool) (deletedWith : String)
    (created modified : Option Nat) (sourcePosition : String) : State where
  type := type
  urn := urn
  custom := custom
  delete := delete
  id := id
  inputs := inputs
  outputs := outputs
  parent := parent
  protect := protect
  external := external
  dependencies := dependencies
  initErrors := initErrors
  provider := provider
  pendingReplacement := pendingReplacement
  customTimeouts := customTimeouts
  importID := importID
  retainOnDelete := retainOnDelete
  deletedWith := deletedWith
  created := created
  modified := modified
  sourcePosition := sourcePosition

/-- Record of a provider RPC performed by a step, with the arguments the Go
code passes (Create, Update, Delete, Read, Check). -/
inductive ProvCall where
  | createCall (urn : String) (inputs : PropertyMap) (timeout : Nat) (preview : Bool)
  | updateCall (urn id : String) (oldInputs oldOutputs newInputs : PropertyMap)
      (timeout : Nat) (ignoreChanges : List String) (preview : Bool)
  | deleteCall (urn id : String) (inputs outputs : PropertyMap) (timeout : Nat)
  | readCall (urn id : String) (oldInputs newInputs : Option PropertyMap)
  | checkCall (urn : String) (olds news : PropertyMap) (preview : Bool) (randomSeed : List Nat)
  deriving DecidableEq, Repr

/-- Outcome of resolving an external collaborator (getProvider, the provider
registry, the diff machinery): either a value or an error message. -/
inductive Resolved (α : Type) where
  | ok (val : α)
  | err (msg : String)
  deriving DecidableEq, Repr

/-- Modelled from the spec: providers.IsProviderType lives outside src; per
section 3.1 a type token may be a provider type, distinguished by namespace
convention. We model the convention as a reserved leading namespace of the
type token. -/
def IsProviderType (t : String) : Bool :=
  decide (t.data.take 17 = "pulumi:providers:".data)

/-- Result of applying a step that carries a new state (Same, Create,
Update): the returned status, whether a non-nil Complete callback was
returned, the returned error, the resulting new and old states, and the
provider RPCs performed. -/
structure ApplyResult where
  status : Status
  complete : Bool
  err : Option StepError
  new : State
  old : Option State
  calls : List ProvCall
  deriving DecidableEq, Repr

/-- SameStep: a mutating step that does nothing (step.go). The deployment
reference is modelled by the hasDeployment flag. -/
structure SameStep where
  old : State
  new : State
  skippedCreate : Bool
  hasDeployment : Bool
  deriving DecidableEq, Repr

/-- Environment for SameStep.Apply: the outcome of
Deployment.SameProvider re-registration (outside src). -/
structure SameEnv where
  sameProvider : Resolved Unit
  deriving DecidableEq, Repr

/-- SameStep.Apply from step.go: retain the ID and outputs; re-register a
provider-typed resource unless this is a skipped create; complete. -/
def SameStep.Apply (s : SameStep) (env : SameEnv) (_preview : Bool) : ApplyResult :=
  let new := { s.new with id := s.old.id, outputs := s.old.outputs }
  if IsProviderType s.new.type ∧ ¬s.skippedCreate ∧ s.hasDeployment then
    match env.sameProvider with
    | .err e =>
        { status := .ok, complete := false
          err := some (.message ("bad provider state for resource " ++ s.new.urn ++ ": " ++ e))
          new := new, old := some s.old, calls := [] }
    | .ok _ =>
        { status := .ok, complete := true, err := none, new := new, old := some s.old, calls := [] }
  else
    { status := .ok, complete := true, err := none, new := new, old := some s.old, calls := [] }

/-- CreateStep: a mutating step that creates an entirely new resource. The
deploymentPreview flag models s.deployment.preview, which the Go code passes
to the Create RPC. -/
structure CreateStep where
  old : Option State
  new : State
  replacing : Bool
  pendingDelete : Bool
  deploymentPreview : Bool
  deriving DecidableEq, Repr

/-- Response of the provider Create RPC. -/
structure CreateResp where
  id : String
  outs : PropertyMap
  rst : Status
  err : Option ProvErr
  deriving DecidableEq, Repr

/-- Environment for CreateStep.Apply: the outcome of getProvider together
with the provider Create response. -/
structure CreateEnv where
  prov : Resolved CreateResp
  deriving DecidableEq, Repr

/-- Tail of CreateStep.Apply after the RPC block: stamp Created and Modified
to now, mark the old resource for deletion when this is a pending-delete
replacement, and return the completion callback. -/
def CreateStep.stamp (s : CreateStep) (new1 : State) (now : Nat) (calls : List ProvCall)
    (resourceError : Option StepError) (resourceStatus : Status) : ApplyResult :=
  let new2 := { new1 with created := some now, modified := some now }
  let old2 := if s.replacing ∧ s.pendingDelete then s.old.map (fun o => { o with delete := true }) else s.old
  { status := resourceStatus, complete := true, err := resourceError, new := new2, old := old2, calls := calls }

/-- End of the custom branch of CreateStep.Apply: outside preview the
provider must have returned a non-empty ID, then the ID and outputs are
copied onto the live object state. -/
def CreateStep.finish (s : CreateStep) (new1 : State) (r : CreateResp)
    (preview : Bool) (now : Nat) (calls : List ProvCall)
    (resourceError : Option StepError) (resourceStatus : Status) : ApplyResult :=
  if ¬preview ∧ r.id = "" then
    { status := resourceStatus, complete := false
      err := some (.message "provider did not return an ID from Create")
      new := new1, old := s.old, calls := calls }
  else
    CreateStep.stamp s { new1 with id := r.id, outputs := r.outs } now calls resourceError resourceStatus

/-- CreateStep.Apply from step.go: invoke the provider Create RPC for a
custom resource, route partial failures onto new.InitErrors, refuse an empty
ID outside preview, stamp both timestamps to now, and mark the old state for
pending deletion when replacing. -/
def CreateStep.Apply (s : CreateStep) (env : CreateEnv) (preview : Bool) (now : Nat) : ApplyResult :=
  if s.new.custom then
    match env.prov with
    | .err e =>
        { status := .ok, complete := false, err := some (.message e)
          new := s.new, old := s.old, calls := [] }
    | .ok r =>
        let call := ProvCall.createCall s.new.urn s.new.inputs s.new.customTimeouts.create s.deploymentPreview
        match r.err with
        | some e =>
            if r.rst = .partFail then
              let new1 := match e with
                | .init rs => { s.new with initErrors := rs }
                | .other _ => s.new
              CreateStep.finish s new1 r preview now [call] (some (.provider e)) r.rst
            else
              { status := r.rst, complete := false, err := some (.provider e)
                new := s.new, old := s.old, calls := [call] }
        | none => CreateStep.finish s s.new r preview now [call] none .ok
  else
    CreateStep.stamp s s.new now [] none .ok

/-- DeleteStep: a mutating step that deletes an existing resource. The
otherDeletions map records the other resources planned for deletion. -/
structure DeleteStep where
  old : State
  replacing : Bool
  otherDeletions : List (String × Bool)
  deriving DecidableEq, Repr

/-- Response of the provider Delete RPC. -/
structure DeleteResp where
  rst : Status
  err : Option ProvErr
  deriving DecidableEq, Repr

/-- Environment for DeleteStep.Apply: the outcome of getProvider together
with the provider Delete response. -/
structure DeleteEnv where
  prov : Resolved DeleteResp
  deriving DecidableEq, Repr

/-- Result of applying a step that carries only an old state (DeleteStep). -/
structure DeleteResult where
  status : Status
  complete : Bool
  err : Option StepError
  old : State
  calls : List ProvCall
  deriving DecidableEq, Repr

/-- isDeletedWith from step.go: whether the DeletedWith URN is present and
true in the map of other planned deletions. -/
def isDeletedWith (w : String) (otherDeletions : List (String × Bool)) : Bool :=
  if w = "" then false
  else match otherDeletions.lookup w with
    | none => false
    | some r => r

/-- Modelled from the spec: URN.Quote is defined in the sdk outside src; it
renders the URN quoted for use in a shell command. -/
def URNQuote (u : String) : String := "\x27" ++ u ++ "\x27"

/-- Message of deleteProtectedError from step.go, the Sprintf expanded with
the URN substituted for the two verbs. -/
def deleteProtectedMessage (urn : String) : String :=
  "resource \"" ++ urn ++ "\" cannot be deleted\nbecause it is protected. " ++
  "To unprotect the resource, either remove the `protect` flag from the " ++
  "resource in your Pulumi program and run `pulumi up`, or use the command:\n" ++
  "`pulumi state unprotect " ++ URNQuote urn ++ "`"

/-- Shared success row of the DeleteStep matrix: status OK, a non-nil no-op
Complete, no error, no provider call. -/
def DeleteStep.okNoop (s : DeleteStep) (calls : List ProvCall) : DeleteResult :=
  { status := .ok, complete := true, err := none, old := s.old, calls := calls }

/-- DeleteStep.Apply from step.go: refuse to delete protected resources
unless replacing; skip the provider call in preview, for external resources,
for retain-on-delete resources, and when DeletedWith lies in the current
deletion set; otherwise invoke the provider Delete RPC for a custom
resource. -/
def DeleteStep.Apply (s : DeleteStep) (env : DeleteEnv) (preview : Bool) : DeleteResult :=
  if ¬s.replacing ∧ s.old.protect then
    { status := .ok, complete := false, err := some (.deleteProtected s.old.urn)
      old := s.old, calls := [] }
  else if preview then s.okNoop []
  else if s.old.external then s.okNoop []
  else if s.old.retainOnDelete then s.okNoop []
  else if isDeletedWith s.old.deletedWith s.otherDeletions then s.okNoop []
  else if s.old.custom then
    match env.prov with
    | .err e =>
        { status := .ok, complete := false, err := some (.message e), old := s.old, calls := [] }
    | .ok r =>
        let call := ProvCall.deleteCall s.old.urn s.old.id s.old.inputs s.old.outputs
          s.old.customTimeouts.delete
        match r.err with
        | some e =>
            { status := r.rst, complete := false, err := some (.provider e), old := s.old, calls := [call] }
        | none => s.okNoop [call]
  else s.okNoop []

/-- NewDeleteReplacementStep from step.go. Contract violations (Requiref on
the old state, and the assertion that pendingReplace and old.Delete are not
both set or both clear) abort the process; we model an abort as none. On
success, old.PendingReplacement is set to the pendingReplace argument. -/
def NewDeleteReplacementStep (otherDeletions : List (String × Bool)) (old : State)
    (pendingReplace : Bool) : Option DeleteStep :=
  if old.urn = "" then none
  else if ¬(old.id ≠ "" ∨ ¬old.custom) then none
  else if ¬(¬old.custom ∨ old.provider ≠ "" ∨ IsProviderType old.type) then none
  else if pendingReplace = old.delete then none
  else
    some { old := { old with pendingReplacement := pendingReplace }
           replacing := true
           otherDeletions := otherDeletions }

/-- UpdateStep: a mutating step that updates an existing resource. -/
structure UpdateStep where
  old : State
  new : State
  ignoreChanges : List String
  deploymentPreview : Bool
  deriving DecidableEq, Repr

/-- Response of the provider Update RPC. -/
structure UpdateResp where
  outs : PropertyMap
  rst : Status
  err : Option ProvErr
  deriving DecidableEq, Repr

/-- Environment for UpdateStep.Apply: the outcome of getProvider together
with the provider Update response. -/
structure UpdateEnv where
  prov : Resolved UpdateResp
  deriving DecidableEq, Repr

/-- UpdateStep.Apply from step.go: always propagate the ID and timestamps
from old to new; for a custom resource invoke the provider Update RPC,
routing partial failures onto new.InitErrors, copy the output state back and
bump the Modified timestamp; finally return the completion callback. -/
def UpdateStep.Apply (s : UpdateStep) (env : UpdateEnv) (_preview : Bool) (now : Nat) : ApplyResult :=
  let new0 := { s.new with id := s.old.id, created := s.old.created, modified := s.old.modified }
  if new0.custom then
    match env.prov with
    | .err e =>
        { status := .ok, complete := false, err := some (.message e)
          new := new0, old := some s.old, calls := [] }
    | .ok r =>
        let call := ProvCall.updateCall s.new.urn s.old.id s.old.inputs s.old.outputs s.new.inputs
          s.new.customTimeouts.update s.ignoreChanges s.deploymentPreview
        match r.err with
        | some e =>
            if r.rst = .partFail then
              let new1 := match e with
                | .init rs => { new0 with initErrors := rs }
                | .other _ => new0
              let new2 := { new1 with outputs := r.outs, modified := some now }
              { status := r.rst, complete := true, err := some (.provider e)
                new := new2, old := some s.old, calls := [call] }
            else
              { status := r.rst, complete := false, err := some (.provider e)
                new := new0, old := some s.old, calls := [call] }
        | none =>
            let new2 := { new0 with outputs := r.outs, modified := some now }
            { status := .ok, complete := true, err := none
              new := new2, old := some s.old, calls := [call] }
  else
    { status := .ok, complete := true, err := none, new := new0, old := some s.old, calls := [] }

/-- Result of a provider Read RPC (plugin.ReadResult): the possibly updated
ID, and the inputs and outputs, either of which may be missing (nil). -/
structure ReadResult where
  id : String
  inputs : Option PropertyMap
  outputs : Option PropertyMap
  deriving DecidableEq, Repr

/-- Response of the provider Read RPC together with its status and error. -/
structure ReadResp where
  result : ReadResult
  rst : Status
  err : Option ProvErr
  deriving DecidableEq, Repr

/-- Environment for RefreshStep.Apply: the outcome of getProvider together
with the provider Read response. -/
structure RefreshEnv where
  prov : Resolved ReadResp
  deriving DecidableEq, Repr

/-- The deferred action performed by the Complete callback a RefreshStep
returns: closing the completion channel supplied at construction. -/
inductive CompleteAction where
  | closeChannel
  deriving DecidableEq, Repr

/-- Result of RefreshStep.Apply: the new state is optional, none signalling
that the resource has disappeared; the Complete callback is modelled by the
action it performs when invoked. -/
structure RefreshResult where
  status : Status
  complete : Option CompleteAction
  err : Option StepError
  new : Option State
  warnings : List String
  calls : List ProvCall
  deriving DecidableEq, Repr

/-- RefreshStep: reconciles an old state against the provider. The done
field records whether a completion channel was supplied at construction. -/
structure RefreshStep where
  old : State
  done : Bool
  deriving DecidableEq, Repr

/-- Warning emitted when a refresh partial failure is downgraded. -/
def unhealthyMessage (reasons : List String) : String :=
  "Refreshed resource is in an unhealthy state:\n* " ++ String.intercalate "\n* " reasons

/-- Tail of RefreshStep.Apply after the Read RPC: adopt provider inputs and a
changed ID, rebuild the new state via resource.NewState carrying the init
errors, bump Modified only when inputs or outputs differ from the old state,
and signal deletion with a missing new state when outputs are absent. -/
def RefreshStep.finish (s : RefreshStep) (r : ReadResp) (now : Nat) (initErrors : List String)
    (warnings : List String) (err : Option StepError) (calls : List ProvCall) : RefreshResult :=
  let resourceID := s.old.id
  let inputs := match r.result.inputs with
    | some ins => ins
    | none => s.old.inputs
  match r.result.outputs with
  | some outs =>
      let newID := if r.result.id ≠ "" ∧ r.result.id ≠ resourceID then r.result.id else resourceID
      let st := NewState s.old.type s.old.urn s.old.custom s.old.delete newID inputs outs
        s.old.parent s.old.protect s.old.external s.old.dependencies initErrors s.old.provider
        s.old.pendingReplacement s.old.customTimeouts s.old.importID s.old.retainOnDelete
        s.old.deletedWith s.old.created s.old.modified s.old.sourcePosition
      let inputsChange := (r.result.inputs.getD []) ≠ s.old.inputs
      let outputsChange := outs ≠ s.old.outputs
      let st := if inputsChange ∨ outputsChange then { st with modified := some now } else st
      { status := r.rst, complete := none, err := err, new := some st
        warnings := warnings, calls := calls }
  | none =>
      { status := r.rst, complete := none, err := err, new := none
        warnings := warnings, calls := calls }

/-- RefreshStep.Apply from step.go: build the channel-closing Complete when a
channel was supplied; short-circuit components, provider resources and
pending-replace resources returning the old state; otherwise Read the
current state, downgrading a partial failure with init errors to a warning,
and rebuild the new state from the result. The custom-resource path returns
a nil Complete. -/
def RefreshStep.Apply (s : RefreshStep) (env : RefreshEnv) (_preview : Bool) (now : Nat) : RefreshResult :=
  let complete : Option CompleteAction := if s.done then some .closeChannel else none
  if ¬s.old.custom ∨ IsProviderType s.old.type ∨ s.old.pendingReplacement then
    { status := .ok, complete := complete, err := none, new := some s.old
      warnings := [], calls := [] }
  else
    match env.prov with
    | .err e =>
        { status := .ok, complete := none, err := some (.message e), new := some s.old
          warnings := [], calls := [] }
    | .ok r =>
        let call := ProvCall.readCall s.old.urn s.old.id (some s.old.inputs) (some s.old.outputs)
        match r.err with
        | some e =>
            if r.rst = .partFail then
              match e with
              | .init rs => RefreshStep.finish s r now rs [unhealthyMessage rs] none [call]
              | .other m => RefreshStep.finish s r now [] [] (some (.provider (.other m))) [call]
            else
              { status := r.rst, complete := none, err := some (.provider e), new := some s.old
                warnings := [], calls := [call] }
        | none => RefreshStep.finish s r now [] [] none [call]

/-- ImportStep: adopts a resource with an explicit existing ID. The original
field is the pre-import state when this is an import-replacement. -/
structure ImportStep where
  original : Option State
  new : State
  replacing : Bool
  planned : Bool
  ignoreChanges : List String
  randomSeed : List Nat
  deriving DecidableEq, Repr

/-- Response of the provider Check RPC. -/
structure CheckResp where
  inputs : PropertyMap
  failures : List String
  err : Option ProvErr
  deriving DecidableEq, Repr

/-- Provider responses consumed by ImportStep.Apply. -/
structure ImportProv where
  read : ReadResp
  check : CheckResp
  deriving DecidableEq, Repr

/-- Classification of a diff (plugin.DiffChanges). -/
inductive DiffChanges where
  | diffUnknown
  | diffNone
  | diffSome
  deriving DecidableEq, Repr

/-- Result of the diff machinery (plugin.DiffResult), reduced to the fields
ImportStep.Apply consults. -/
structure DiffResult where
  changes : DiffChanges
  changedKeys : List String
  deriving DecidableEq, Repr

/-- Environment for ImportStep.Apply. The deployment maps, URN parsing, the
provider-reference parsing, processIgnoreChanges and diffResource live
outside the step code; their outcomes are supplied here as data. The field
deployImports models deployment.imports as pairs of an ID and a Properties
list. -/
structure ImportEnv where
  oldsHasURN : Bool
  parentIsRootStack : Bool
  newsHasParent : Bool
  urnTypePackage : String
  plannedProviderPkg : String
  deployImports : List (String × List String)
  prov : Resolved ImportProv
  processIgnore : Resolved PropertyMap
  diff : Resolved DiffResult
  deriving DecidableEq, Repr

/-- Result of ImportStep.Apply. The old field is the pseudo-old state
synthesised from the Read result; original is the pre-import state after any
Delete marking; aborted models a contract assertion failure terminating the
process. -/
structure ImportResult where
  status : Status
  complete : Bool
  err : Option StepError
  new : State
  old : Option State
  original : Option State
  diffs : List String
  warnings : List String
  calls : List ProvCall
  aborted : Bool
  deriving DecidableEq, Repr

/-- Failure shorthand for ImportStep.Apply: an error with a nil Complete. -/
def ImportStep.fail (s : ImportStep) (st : Status) (e : StepError) (new : State)
    (old : Option State) (calls : List ProvCall) : ImportResult :=
  { status := st, complete := false, err := some e, new := new, old := old
    original := s.original, diffs := [], warnings := [], calls := calls, aborted := false }

/-- Contract assertion failure inside ImportStep.Apply, modelled as an
aborted result. -/
def ImportStep.abort (s : ImportStep) (new : State) (old : Option State) : ImportResult :=
  { status := .unknown, complete := false, err := none, new := new, old := old
    original := s.original, diffs := [], warnings := [], calls := [], aborted := true }

/-- First import directive of deployment.imports whose ID matches, yielding
its Properties list (empty when none matches). -/
def findInputProps (imps : List (String × List String)) (id : String) : List String :=
  match imps with
  | [] => []
  | (i, props) :: rest => if i = id then props else findInputProps rest id

/-- Warning text of the planned-import branch when check failures occur,
differentiating a missing user filter from a user-supplied property set. -/
def plannedWarning (noUserFilter : Bool) (pkgName : String) : String :=
  let errorMessage := if noUserFilter then
      "This is almost certainly a bug in the `" ++ pkgName ++ "` provider."
    else "Try specifying a different set of properties to import with in the future."
  "One or more imported inputs failed to validate. " ++ errorMessage ++
    " The import will still proceed, but you will need to edit the generated code after copying it into your program."

/-- Modelled from the spec: issueCheckErrors lives outside src; per the spec
the adoption branch treats check failures as fatal, so it reports whether
any failures were issued. -/
def issueCheckErrors (failures : List String) : Bool := ¬failures.isEmpty

/-- Planned-import branch of ImportStep.Apply: assert the desired state has
no inputs, choose the inputs to persist from the Read result (filtered by
the import directive when present), Check them, and warn rather than fail on
check failures. -/
def ImportStep.plannedBranch (s : ImportStep) (env : ImportEnv) (preview : Bool)
    (new4 : State) (old : State) (rst : Status) (calls : List ProvCall)
    (check : CheckResp) : ImportResult :=
  if new4.inputs ≠ [] then s.abort new4 (some old)
  else
    let inputProperties := findInputProps env.deployImports old.id
    let newInputs := if inputProperties = [] then old.inputs
      else inputProperties.filterMap (fun p => (old.inputs.lookup p).map (fun v => (p, v)))
    let new5 := { new4 with inputs := newInputs }
    let call := ProvCall.checkCall new5.urn old.inputs new5.inputs preview s.randomSeed
    match check.err with
    | some e => s.fail rst (.provider e) new5 (some old) (calls ++ [call])
    | none =>
        let warns1 := if check.failures ≠ [] then
            [plannedWarning (inputProperties = []) env.plannedProviderPkg] else []
        { status := rst, complete := true, err := none, new := new5, old := some old
          original := s.original, diffs := [], warnings := warns1 ++ check.failures
          calls := calls ++ [call], aborted := false }

/-- Adoption branch of ImportStep.Apply: apply ignoreChanges, Check the
inputs (failures fatal), diff the user inputs against the provider inputs;
a non-empty diff warns in preview and fails outside preview; on success in
replacement mode the original state is marked for deletion. -/
def ImportStep.adoptionBranch (s : ImportStep) (env : ImportEnv) (preview : Bool)
    (new4 : State) (old : State) (rst : Status) (calls : List ProvCall)
    (check : CheckResp) : ImportResult :=
  match env.processIgnore with
  | .err e => s.fail .ok (.message e) new4 (some old) calls
  | .ok processedInputs =>
      let new5 := { new4 with inputs := processedInputs }
      let call := ProvCall.checkCall new5.urn old.inputs new5.inputs preview s.randomSeed
      let calls2 := calls ++ [call]
      match check.err with
      | some e => s.fail rst (.provider e) new5 (some old) calls2
      | none =>
          if issueCheckErrors check.failures then
            s.fail rst (.message "one or more inputs failed to validate") new5 (some old) calls2
          else
            let new6 := { new5 with inputs := check.inputs }
            match env.diff with
            | .err e => s.fail rst (.message e) new6 (some old) calls2
            | .ok d =>
                let mismatch := d.changes ≠ .diffNone
                let err : Option StepError := if mismatch ∧ ¬preview then
                    some (.message "inputs to import do not match the existing resource") else none
                let warnings := if mismatch ∧ preview then
                    ["inputs to import do not match the existing resource; importing this resource will fail"]
                  else []
                let original := if err = none ∧ s.replacing then
                    s.original.map (fun o => { o with delete := true }) else s.original
                { status := rst, complete := true, err := err, new := new6, old := some old
                  original := original, diffs := d.changedKeys, warnings := warnings
                  calls := calls2, aborted := false }

/-- Common tail of ImportStep.Apply once the Read result is in hand: store
the outputs, synthesise the pseudo-old state via resource.NewState, stamp
Created and Modified to now, return early for components, then run the
planned or the adoption branch. -/
def ImportStep.common (s : ImportStep) (env : ImportEnv) (preview : Bool) (now : Nat)
    (new2 : State) (inputs outputs : PropertyMap) (rst : Status) (calls : List ProvCall)
    (check : CheckResp) : ImportResult :=
  let new3 := { new2 with outputs := outputs }
  let old := NewState new3.type new3.urn new3.custom false new3.id inputs outputs new3.parent
    new3.protect false new3.dependencies new3.initErrors new3.provider false new3.customTimeouts
    new3.importID new3.retainOnDelete new3.deletedWith none none new3.sourcePosition
  let new4 := { new3 with modified := some now, created := some now }
  if ¬new4.custom then
    { status := rst, complete := true, err := none, new := new4, old := some old
      original := s.original, diffs := [], warnings := [], calls := calls, aborted := false }
  else if s.planned then
    s.plannedBranch env preview new4 old rst calls check
  else
    s.adoptionBranch env preview new4 old rst calls check

/-- ImportStep.Apply from step.go: planned imports must be absent from the
old state map and have a known parent; custom resources are Read from the
provider (missing outputs or inputs fail the step); then the common tail
synthesises the pseudo-old state and validates the inputs. -/
def ImportStep.Apply (s : ImportStep) (env : ImportEnv) (preview : Bool) (now : Nat) : ImportResult :=
  if s.planned ∧ env.oldsHasURN then
    s.fail .ok (.message ("resource \x27" ++ s.new.urn ++ "\x27 already exists")) s.new none []
  else if s.planned ∧ ¬env.parentIsRootStack ∧ ¬env.newsHasParent then
    s.fail .ok (.message ("unknown parent \x27" ++ s.new.parent ++ "\x27 for resource \x27" ++
      s.new.urn ++ "\x27")) s.new none []
  else if s.new.custom then
    match env.prov with
    | .err e => s.fail .ok (.message e) s.new none []
    | .ok p =>
        let call := ProvCall.readCall s.new.urn s.new.id none none
        match p.read.err with
        | some (.other m) => s.fail p.read.rst (.provider (.other m)) s.new none [call]
        | _ =>
            let new1 := match p.read.err with
              | some (.init rs) => { s.new with initErrors := rs }
              | _ => s.new
            match p.read.result.outputs with
            | none =>
                s.fail p.read.rst (.message ("resource \x27" ++ s.new.id ++ "\x27 does not exist"))
                  new1 none [call]
            | some outs =>
                match p.read.result.inputs with
                | none =>
                    s.fail .ok (.message ("provider does not support importing resources; " ++
                      "please try updating the \x27" ++ env.urnTypePackage ++ "\x27 plugin"))
                      new1 none [call]
                | some ins =>
                    let new2 := if p.read.result.id ≠ "" then { new1 with id := p.read.result.id }
                      else new1
                    s.common env preview now new2 ins outs p.read.rst [call] p.check
  else
    s.common env preview now s.new [] [] .ok [] { inputs := [], failures := [], err := none }

/-- The 15 StepOp tags (display.StepOp string constants from step.go). -/
def OpSame : String := "same"

/-- StepOp tag for creating a new resource. -/
def OpCreate : String := "create"

/-- StepOp tag for updating an existing resource. -/
def OpUpdate : String := "update"

/-- StepOp tag for deleting an existing resource. -/
def OpDelete : String := "delete"

/-- StepOp tag for replacing a resource with a new one. -/
def OpReplace : String := "replace"

/-- StepOp tag for creating a new resource for a replacement. -/
def OpCreateReplacement : String := "create-replacement"

/-- StepOp tag for deleting an existing resource after replacement. -/
def OpDeleteReplaced : String := "delete-replaced"

/-- StepOp tag for reading an existing resource. -/
def OpRead : String := "read"

/-- StepOp tag for reading an existing resource for a replacement. -/
def OpReadReplacement : String := "read-replacement"

/-- StepOp tag for refreshing an existing resource. -/
def OpRefresh : String := "refresh"

/-- StepOp tag for removing a resource that was read. -/
def OpReadDiscard : String := "discard"

/-- StepOp tag for discarding a read resource that was replaced. -/
def OpDiscardReplaced : String := "discard-replaced"

/-- StepOp tag for removing a pending replace resource. -/
def OpRemovePendingReplace : String := "remove-pending-replace"

/-- StepOp tag for adopting an existing resource. -/
def OpImport : String := "import"

/-- StepOp tag for replacing an existing resource with an adopted one. -/
def OpImportReplacement : String := "import-replacement"

/-- StepOps from step.go: the full set of step operation types. -/
def StepOps : List String :=
  [OpSame, OpCreate, OpUpdate, OpDelete, OpReplace, OpCreateReplacement, OpDeleteReplaced,
   OpRead, OpReadReplacement, OpRefresh, OpReadDiscard, OpDiscardReplaced,
   OpRemovePendingReplace, OpImport, OpImportReplacement]

/-- ConstrainedTo from step.go: whether op is no more impactful than the
constraint, via the switch over the constraint building an allowed list. -/
def ConstrainedTo (op constraint : String) : Bool :=
  let allowed : List String :=
    if constraint = OpSame ∨ constraint = OpDelete ∨ constraint = OpRead ∨
        constraint = OpReadReplacement ∨ constraint = OpRefresh ∨ constraint = OpReadDiscard ∨
        constraint = OpDiscardReplaced ∨ constraint = OpRemovePendingReplace ∨
        constraint = OpImport ∨ constraint = OpImportReplacement then
      [constraint]
    else if constraint = OpCreate then [OpSame, OpCreate]
    else if constraint = OpUpdate then [OpSame, OpUpdate]
    else if constraint = OpReplace ∨ constraint = OpCreateReplacement ∨
        constraint = OpDeleteReplaced then
      [OpSame, OpUpdate, constraint]
    else []
  allowed.contains op

/-- The ConstrainedTo table as the spec states it, written from the claim
wording for comparison with the implementation: the ten listed constraints
allow exactly themselves; create allows same and create; update allows same
and update; the three replacement constraints allow same, update and the
constraint itself; every other pairing is disallowed. -/
def ConstrainedToSpec (op constraint : String) : Bool :=
  if constraint ∈ [OpSame, OpDelete, OpRead, OpReadReplacement, OpRefresh, OpReadDiscard,
      OpDiscardReplaced, OpRemovePendingReplace, OpImport, OpImportReplacement] then
    decide (op = constraint)
  else if constraint = OpCreate then decide (op = OpSame ∨ op = OpCreate)
  else if constraint = OpUpdate then decide (op = OpSame ∨ op = OpUpdate)
  else if constraint ∈ [OpReplace, OpCreateReplacement, OpDeleteReplaced] then
    decide (op = OpSame ∨ op = OpUpdate ∨ op = constraint)
  else false

/-- String containment, phrased as a concatenation split. -/
def StrContains (hay needle : String) : Prop := ∃ a b, hay = a ++ (needle ++ b)

/-- C4: for every pair (op, constraint) of the 15 StepOps, ConstrainedTo
returns true exactly as the spec table gives it: the ten singleton
constraints allow exactly themselves, create allows same and create, update
allows same and update, the three replacement constraints allow same,
update and themselves, and every other pairing returns false. -/
theorem C4_constrained_to_table :
    ∀ i j : Fin StepOps.length,
      ConstrainedTo (StepOps.get i) (StepOps.get j)
        = ConstrainedToSpec (StepOps.get i) (StepOps.get j) := by decide

/-- C10: NewDeleteReplacementStep aborts unless exactly one of its
pendingReplace argument and old.Delete holds (so pendingReplace=false on an
old state with Delete=false also aborts), and when construction succeeds,
old.PendingReplacement is set to the pendingReplace argument. -/
theorem C10_delete_replacement_invariant :
    (∀ (od : List (String × Bool)) (old : State) (pr : Bool),
      pr = old.delete → NewDeleteReplacementStep od old pr = none) ∧
    (∀ (od : List (String × Bool)) (old : State) (pr : Bool) (st : DeleteStep),
      NewDeleteReplacementStep od old pr = some st →
      pr ≠ old.delete ∧ st.old.pendingReplacement = pr ∧ st.replacing = true) := by
  constructor
  · intro od old pr h
    simp [NewDeleteReplacementStep, h]
  · intro od old pr st h
    unfold NewDeleteReplacementStep at h
    split at h
    · cases h
    split at h
    · cases h
    split at h
    · cases h
    split at h
    · cases h
    · rename_i hne
      cases h
      exact ⟨hne, rfl, rfl⟩

/-- Old state used in the C10 witness: a valid non-custom state not marked
for deletion. -/
def C10old : State := { State.empty with urn := "u" }

/-- Step produced by the C10 witness construction. -/
def C10st : DeleteStep :=
  { old := { C10old with pendingReplacement := true }, replacing := true, otherDeletions := [] }

/-- C10 witness: pendingReplace=false on Delete=false aborts, and the
successful construction with pendingReplace=true records the flag. -/
theorem C10_witness :
    NewDeleteReplacementStep [] C10old false = none ∧
    (true ≠ C10old.delete ∧ C10st.old.pendingReplacement = true ∧ C10st.replacing = true) :=
  ⟨C10_delete_replacement_invariant.1 [] C10old false (by decide),
   C10_delete_replacement_invariant.2 [] C10old true C10st (by decide)⟩

/-- C7 (amended): when a completion channel was supplied at construction,
RefreshStep.Apply returns the non-nil channel-closing Complete callback on
the short-circuit paths (component, provider-typed, or pending-replacement
resources); the custom-resource path that performs the provider Read
returns a nil Complete instead. -/
theorem C7_refresh_complete (s : RefreshStep) (env : RefreshEnv) (preview : Bool) (now : Nat)
    (hdone : s.done = true)
    (hshort : s.old.custom = false ∨ IsProviderType s.old.type = true ∨
      s.old.pendingReplacement = true) :
    (s.Apply env preview now).complete = some .closeChannel := by
  rcases hshort with h | h | h <;> simp [RefreshStep.Apply, hdone, h]

/-- C7 witness: a component (non-custom) refresh with a channel returns the
channel-closing Complete. -/
theorem C7_witness :
    (RefreshStep.Apply { old := { State.empty with urn := "w" }, done := true }
      { prov := .err "x" } false 0).complete = some .closeChannel :=
  C7_refresh_complete _ _ false 0 rfl (Or.inl rfl)

/-- Concrete custom resource step for the C7 counterexample. -/
def C7ctr : RefreshStep :=
  { old := { State.empty with urn := "urn:r", custom := true, id := "rid", provider := "p", type := "aws:s3:Bucket" }
    done := true }

/-- Environment for the C7 counterexample: a successful Read. -/
def C7ctrEnv : RefreshEnv :=
  { prov := .ok { result := { id := "rid", inputs := some [], outputs := some [] }, rst := .ok, err := none } }

/-- C7 counterexample: a custom-resource refresh constructed with a
completion channel performs the provider Read, succeeds, and still returns
a nil Complete callback, so the channel is not closed on this path. -/
theorem C7_counterexample :
    (C7ctr.Apply C7ctrEnv false 3).err = none ∧
    (C7ctr.Apply C7ctrEnv false 3).complete = none := by decide

/-- C6 (amended): for every UpdateStep.Apply on a custom resource whose
provider Update succeeds or partially fails, the new state inherits the old
ID and Created timestamp, Modified is set to the apply instant, a non-nil
Complete is returned, and - assuming the apply instant is later than the
old Modified timestamp - the new Modified is strictly greater. -/
theorem C6_update_timestamps (s : UpdateStep) (env : UpdateEnv) (r : UpdateResp)
    (preview : Bool) (now : Nat)
    (hcustom : s.new.custom = true)
    (hprov : env.prov = .ok r)
    (hok : r.err = none ∨ r.rst = .partFail) :
    (s.Apply env preview now).new.id = s.old.id ∧
    (s.Apply env preview now).new.created = s.old.created ∧
    (s.Apply env preview now).new.modified = some now ∧
    (s.Apply env preview now).complete = true ∧
    (∀ t u, s.old.modified = some t → t < now →
      (s.Apply env preview now).new.modified = some u → t < u) := by
  have H : (s.Apply env preview now).new.id = s.old.id ∧
      (s.Apply env preview now).new.created = s.old.created ∧
      (s.Apply env preview now).new.modified = some now ∧
      (s.Apply env preview now).complete = true := by
    rcases hok with he | hrst
    · simp [UpdateStep.Apply, hprov, hcustom, he]
    · cases hre : r.err with
      | none => simp [UpdateStep.Apply, hprov, hcustom, hre]
      | some e => cases e <;> simp [UpdateStep.Apply, hprov, hcustom, hre, hrst]
  refine ⟨H.1, H.2.1, H.2.2.1, H.2.2.2, ?_⟩
  intro t u _ hlt hu
  rw [H.2.2.1] at hu
  injection hu with h
  rw [← h]
  exact hlt

/-- Step for the C6 witness: a custom resource with an older Modified. -/
def C6w : UpdateStep :=
  { old := { State.empty with urn := "u1", custom := true, provider := "p", id := "i1", created := some 2, modified := some 5 }
    new := { State.empty with urn := "u1", custom := true, provider := "p" }
    ignoreChanges := [], deploymentPreview := false }

/-- Environment for the C6 witness: a successful Update. -/
def C6wEnv : UpdateEnv := { prov := .ok { outs := [("z", 1)], rst := .ok, err := none } }

/-- C6 witness: the successful update at instant 9 inherits ID and Created
and bumps Modified to 9, strictly above the old 5. -/
theorem C6_witness :
    (C6w.Apply C6wEnv false 9).new.id = "i1" ∧
    (C6w.Apply C6wEnv false 9).new.created = some 2 ∧
    (C6w.Apply C6wEnv false 9).new.modified = some 9 ∧
    (5 : Nat) < 9 := by
  have h := C6_update_timestamps C6w C6wEnv { outs := [("z", 1)], rst := .ok, err := none }
    false 9 (by decide) rfl (Or.inl rfl)
  exact ⟨h.1, h.2.1, h.2.2.1, h.2.2.2.2 5 9 (by decide) (by decide) h.2.2.1⟩

/-- Step for the C6 counterexample: a non-custom update. -/
def C6ctr : UpdateStep :=
  { old := { State.empty with urn := "u2", modified := some 5 }
    new := { State.empty with urn := "u2" }
    ignoreChanges := [], deploymentPreview := false }

/-- C6 counterexample: a non-custom UpdateStep.Apply succeeds (status OK, no
error) yet Modified is inherited from the old state rather than set to the
apply instant 7, and is not strictly greater than the old Modified. -/
theorem C6_counterexample :
    (C6ctr.Apply { prov := .err "unused" } false 7).err = none ∧
    (C6ctr.Apply { prov := .err "unused" } false 7).status = .ok ∧
    (C6ctr.Apply { prov := .err "unused" } false 7).new.modified = some 5 ∧
    ¬(C6ctr.Apply { prov := .err "unused" } false 7).new.modified = some 7 := by decide

/-- C9 (amended): every SameStep.Apply propagates the old ID and Outputs to
the new state, returns status OK and performs no provider RPC; the Complete
callback is non-nil and the error nil for non-provider-typed resources,
while a provider-typed resource whose re-registration fails yields a nil
Complete together with the error. -/
theorem C9_same_step (s : SameStep) (env : SameEnv) (preview : Bool) :
    (s.Apply env preview).new.id = s.old.id ∧
    (s.Apply env preview).new.outputs = s.old.outputs ∧
    (s.Apply env preview).status = .ok ∧
    (s.Apply env preview).calls = [] ∧
    (IsProviderType s.new.type = false →
      (s.Apply env preview).complete = true ∧ (s.Apply env preview).err = none) ∧
    (∀ e, IsProviderType s.new.type = true → s.skippedCreate = false → s.hasDeployment = true →
      env.sameProvider = .err e →
      (s.Apply env preview).complete = false ∧
      (s.Apply env preview).err
        = some (.message ("bad provider state for resource " ++ s.new.urn ++ ": " ++ e))) := by
  by_cases hc : IsProviderType s.new.type ∧ ¬s.skippedCreate ∧ s.hasDeployment
  · rcases hse : env.sameProvider with u | e
    · have happ : s.Apply env preview
          = { status := .ok, complete := true, err := none
              new := { s.new with id := s.old.id, outputs := s.old.outputs }
              old := some s.old, calls := [] } := by
        simp [SameStep.Apply, hc, hse]
      refine ⟨by simp [happ], by simp [happ], by simp [happ], by simp [happ],
        fun _ => ⟨by simp [happ], by simp [happ]⟩, ?_⟩
      intro e2 _ _ _ h4
      simp at h4
    · have happ : s.Apply env preview
          = { status := .ok, complete := false
              err := some (.message ("bad provider state for resource " ++ s.new.urn ++ ": " ++ e))
              new := { s.new with id := s.old.id, outputs := s.old.outputs }
              old := some s.old, calls := [] } := by
        simp [SameStep.Apply, hc, hse]
      refine ⟨by simp [happ], by simp [happ], by simp [happ], by simp [happ], ?_, ?_⟩
      · intro h
        exact absurd hc.1 (by simp [h])
      · intro e2 _ _ _ h4
        injection h4 with h
        subst h
        exact ⟨by simp [happ], by simp [happ]⟩
  · have happ : s.Apply env preview
        = { status := .ok, complete := true, err := none
            new := { s.new with id := s.old.id, outputs := s.old.outputs }
            old := some s.old, calls := [] } := by
      simp only [SameStep.Apply]
      rw [if_neg hc]
    refine ⟨by simp [happ], by simp [happ], by simp [happ], by simp [happ],
      fun _ => ⟨by simp [happ], by simp [happ]⟩, ?_⟩
    intro e h1 h2 h3 _
    exact absurd ⟨by simp [h1], by simp [h2], by simp [h3]⟩ hc

/-- Step for the C9 witness: a plain non-provider-typed resource. -/
def C9w : SameStep :=
  { old := { State.empty with urn := "a", id := "i", outputs := [("k", 1)] }
    new := { State.empty with urn := "a" }
    skippedCreate := false, hasDeployment := true }

/-- C9 witness: the scenario-1 same step propagates ID and Outputs and
completes without error. -/
theorem C9_witness :
    (C9w.Apply { sameProvider := .ok () } false).new.id = "i" ∧
    (C9w.Apply { sameProvider := .ok () } false).new.outputs = [("k", 1)] ∧
    (C9w.Apply { sameProvider := .ok () } false).complete = true ∧
    (C9w.Apply { sameProvider := .ok () } false).err = none := by
  have h := C9_same_step C9w { sameProvider := .ok () } false
  exact ⟨h.1, h.2.1, (h.2.2.2.2.1 (by decide)).1, (h.2.2.2.2.1 (by decide)).2⟩

/-- Step for the C9 counterexample: a provider-typed resource. -/
def C9ctr : SameStep :=
  { old := { State.empty with urn := "p1", type := "pulumi:providers:aws", custom := true, id := "pid" }
    new := { State.empty with urn := "p1", type := "pulumi:providers:aws", custom := true }
    skippedCreate := false, hasDeployment := true }

/-- C9 counterexample: a provider-typed SameStep whose re-registration fails
returns status OK but a nil Complete callback, refuting the unconditional
non-nil-Complete reading of the claim. -/
theorem C9_counterexample :
    (C9ctr.Apply { sameProvider := .err "boom" } false).status = .ok ∧
    (C9ctr.Apply { sameProvider := .err "boom" } false).complete = false := by decide

/-- C1 (amended): for CreateStep.Apply and UpdateStep.Apply invoked
non-preview on a custom resource, a provider InitError with status
PartialFailure puts its reasons on new.InitErrors, returns a non-nil
Complete, and surfaces the error with status PartialFailure - for
CreateStep provided the provider also returned a non-empty ID; any other
provider error (status not PartialFailure) yields a nil Complete and the
error. -/
theorem C1_init_error_round_trip :
    (∀ (s : CreateStep) (env : CreateEnv) (r : CreateResp) (rs : List String) (now : Nat),
      s.new.custom = true → env.prov = .ok r → r.err = some (.init rs) → r.rst = .partFail →
      r.id ≠ "" →
      (s.Apply env false now).new.initErrors = rs ∧
      (s.Apply env false now).complete = true ∧
      (s.Apply env false now).err = some (.provider (.init rs)) ∧
      (s.Apply env false now).status = .partFail) ∧
    (∀ (s : UpdateStep) (env : UpdateEnv) (r : UpdateResp) (rs : List String) (now : Nat),
      s.new.custom = true → env.prov = .ok r → r.err = some (.init rs) → r.rst = .partFail →
      (s.Apply env false now).new.initErrors = rs ∧
      (s.Apply env false now).complete = true ∧
      (s.Apply env false now).err = some (.provider (.init rs)) ∧
      (s.Apply env false now).status = .partFail) ∧
    (∀ (s : CreateStep) (env : CreateEnv) (r : CreateResp) (e : ProvErr) (now : Nat),
      s.new.custom = true → env.prov = .ok r → r.err = some e → r.rst ≠ .partFail →
      (s.Apply env false now).complete = false ∧
      (s.Apply env false now).err = some (.provider e) ∧
      (s.Apply env false now).status = r.rst) ∧
    (∀ (s : UpdateStep) (env : UpdateEnv) (r : UpdateResp) (e : ProvErr) (now : Nat),
      s.new.custom = true → env.prov = .ok r → r.err = some e → r.rst ≠ .partFail →
      (s.Apply env false now).complete = false ∧
      (s.Apply env false now).err = some (.provider e) ∧
      (s.Apply env false now).status = r.rst) := by
  refine ⟨?_, ?_, ?_, ?_⟩
  · intro s env r rs now hcustom hprov hre hrst hid
    simp [CreateStep.Apply, CreateStep.finish, CreateStep.stamp, hcustom, hprov, hre, hrst, hid]
  · intro s env r rs now hcustom hprov hre hrst
    simp [UpdateStep.Apply, hcustom, hprov, hre, hrst]
  · intro s env r e now hcustom hprov hre hrst
    cases e <;> simp [CreateStep.Apply, hcustom, hprov, hre, hrst]
  · intro s env r e now hcustom hprov hre hrst
    cases e <;> simp [UpdateStep.Apply, hcustom, hprov, hre, hrst]

/-- Create step for the C1 witness. -/
def C1wc : CreateStep :=
  { old := none, new := { State.empty with urn := "b", custom := true, provider := "p" }
    replacing := false, pendingDelete := false, deploymentPreview := false }

/-- Create environment for the C1 witness: PartialFailure InitError with a
non-empty ID. -/
def C1wcEnv : CreateEnv :=
  { prov := .ok { id := "id-8", outs := [], rst := .partFail, err := some (.init ["x", "y"]) } }

/-- Update step for the C1 witness. -/
def C1wu : UpdateStep :=
  { old := { State.empty with urn := "u", custom := true, provider := "p", id := "i" }
    new := { State.empty with urn := "u", custom := true, provider := "p" }
    ignoreChanges := [], deploymentPreview := false }

/-- Update environment for the C1 witness: PartialFailure InitError. -/
def C1wuEnv : UpdateEnv :=
  { prov := .ok { outs := [], rst := .partFail, err := some (.init ["x", "y"]) } }

/-- Update environment for the C1 witness hard-error part. -/
def C1wuEnvHard : UpdateEnv :=
  { prov := .ok { outs := [], rst := .unknown, err := some (.other "boom") } }

/-- C1 witness: the partial-failure round trip at reasons x,y on a concrete
create and update, and the hard-error case returning a nil Complete. -/
theorem C1_witness :
    (C1wc.Apply C1wcEnv false 0).new.initErrors = ["x", "y"] ∧
    (C1wc.Apply C1wcEnv false 0).complete = true ∧
    (C1wu.Apply C1wuEnv false 0).err = some (.provider (.init ["x", "y"])) ∧
    (C1wu.Apply C1wuEnv false 0).status = .partFail ∧
    (C1wu.Apply C1wuEnvHard false 0).complete = false := by
  have h1 := C1_init_error_round_trip.1 C1wc C1wcEnv
    { id := "id-8", outs := [], rst := .partFail, err := some (.init ["x", "y"]) }
    ["x", "y"] 0 (by decide) rfl rfl rfl (by decide)
  have h2 := C1_init_error_round_trip.2.1 C1wu C1wuEnv
    { outs := [], rst := .partFail, err := some (.init ["x", "y"]) }
    ["x", "y"] 0 (by decide) rfl rfl rfl
  have h3 := C1_init_error_round_trip.2.2.2 C1wu C1wuEnvHard
    { outs := [], rst := .unknown, err := some (.other "boom") }
    (.other "boom") 0 (by decide) rfl rfl (by decide)
  exact ⟨h1.1, h1.2.1, h2.2.2.1, h2.2.2.2, h3.1⟩

/-- Create step for the C1 counterexample. -/
def C1ctr : CreateStep :=
  { old := none, new := { State.empty with urn := "b", custom := true, provider := "p" }
    replacing := false, pendingDelete := false, deploymentPreview := false }

/-- Create environment for the C1 counterexample: PartialFailure InitError
with an empty ID. -/
def C1ctrEnv : CreateEnv :=
  { prov := .ok { id := "", outs := [], rst := .partFail, err := some (.init ["x", "y"]) } }

/-- C1 counterexample: when the provider returns a PartialFailure InitError
but an empty ID, CreateStep.Apply outside preview records the reasons yet
returns a nil Complete and the missing-ID error instead of the InitError,
refuting the claim as universally stated. -/
theorem C1_counterexample :
    (C1ctr.Apply C1ctrEnv false 0).new.initErrors = ["x", "y"] ∧
    (C1ctr.Apply C1ctrEnv false 0).complete = false ∧
    (C1ctr.Apply C1ctrEnv false 0).err
      = some (.message "provider did not return an ID from Create") := by decide

/-- C5: for CreateStep.Apply on a custom resource outside preview, an empty
provider-returned ID fails the step with an error and a nil Complete; on
success the provider-returned ID and outputs are stored on the new state
and Created and Modified are both set to the apply instant. -/
theorem C5_create_id_and_timestamps (s : CreateStep) (env : CreateEnv) (r : CreateResp) (now : Nat)
    (hcustom : s.new.custom = true) (hprov : env.prov = .ok r) :
    (r.id = "" →
      (s.Apply env false now).err.isSome ∧ (s.Apply env false now).complete = false) ∧
    (r.err = none → r.id ≠ "" →
      (s.Apply env false now).new.id = r.id ∧
      (s.Apply env false now).new.outputs = r.outs ∧
      (s.Apply env false now).new.created = some now ∧
      (s.Apply env false now).new.modified = some now ∧
      (s.Apply env false now).complete = true ∧
      (s.Apply env false now).err = none ∧
      (s.Apply env false now).status = .ok) := by
  constructor
  · intro hid
    rcases hre : r.err with _ | e
    · simp [CreateStep.Apply, CreateStep.finish, hcustom, hprov, hre, hid]
    · by_cases hrst : r.rst = .partFail
      · cases e <;>
          simp [CreateStep.Apply, CreateStep.finish, hcustom, hprov, hre, hrst, hid]
      · simp [CreateStep.Apply, hcustom, hprov, hre, hrst]
  · intro hre hid
    simp [CreateStep.Apply, CreateStep.finish, CreateStep.stamp, hcustom, hprov, hre, hid]

/-- Create step for the C5 witness. -/
def C5w : CreateStep :=
  { old := none, new := { State.empty with urn := "b", custom := true, provider := "p" }
    replacing := false, pendingDelete := false, deploymentPreview := false }

/-- Successful create environment for the C5 witness. -/
def C5wEnvOk : CreateEnv :=
  { prov := .ok { id := "id-7", outs := [("z", 9)], rst := .ok, err := none } }

/-- Empty-ID create environment for the C5 witness. -/
def C5wEnvEmpty : CreateEnv :=
  { prov := .ok { id := "", outs := [], rst := .ok, err := none } }

/-- C5 witness: the empty-ID create fails with a nil Complete, and the
scenario-2 create stores ID and outputs and stamps both timestamps to 42. -/
theorem C5_witness :
    (C5w.Apply C5wEnvEmpty false 42).complete = false ∧
    (C5w.Apply C5wEnvOk false 42).new.id = "id-7" ∧
    (C5w.Apply C5wEnvOk false 42).new.outputs = [("z", 9)] ∧
    (C5w.Apply C5wEnvOk false 42).new.created = some 42 ∧
    (C5w.Apply C5wEnvOk false 42).new.modified = some 42 := by
  have h1 := (C5_create_id_and_timestamps C5w C5wEnvEmpty
    { id := "", outs := [], rst := .ok, err := none } 42 (by decide) rfl).1 rfl
  have h2 := (C5_create_id_and_timestamps C5w C5wEnvOk
    { id := "id-7", outs := [("z", 9)], rst := .ok, err := none } 42 (by decide) rfl).2
    rfl (by decide)
  exact ⟨h1.2, h2.1, h2.2.1, h2.2.2.1, h2.2.2.2.1⟩

/-- C2: a non-replacing DeleteStep on a protected state returns status OK, a
nil Complete and the typed DeleteProtected error carrying the URN, whose
message contains the URN and the unprotect hint, with no provider call and
the old state unchanged; a replacing DeleteStep on the same state never
returns a DeleteProtected error. -/
theorem C2_delete_protected (s : DeleteStep) (env : DeleteEnv) (preview : Bool)
    (hprotect : s.old.protect = true) :
    (s.replacing = false →
      (s.Apply env preview).status = .ok ∧
      (s.Apply env preview).complete = false ∧
      (s.Apply env preview).err = some (.deleteProtected s.old.urn) ∧
      (s.Apply env preview).calls = [] ∧
      (s.Apply env preview).old = s.old ∧
      StrContains (deleteProtectedMessage s.old.urn) s.old.urn ∧
      StrContains (deleteProtectedMessage s.old.urn) "pulumi state unprotect") ∧
    (s.replacing = true →
      ∀ u, (s.Apply env preview).err ≠ some (.deleteProtected u)) := by
  constructor
  · intro hrep
    have happ : s.Apply env preview
        = { status := .ok, complete := false, err := some (.deleteProtected s.old.urn)
            old := s.old, calls := [] } := by
      unfold DeleteStep.Apply
      rw [if_pos (by simp [hrep, hprotect])]
    have hmsg : deleteProtectedMessage s.old.urn
        = "resource \"" ++ (s.old.urn ++
          ("\" cannot be deleted\nbecause it is protected. To unprotect the resource, either remove the `protect` flag from the resource in your Pulumi program and run `pulumi up`, or use the command:\n`pulumi state unprotect " ++
          (URNQuote s.old.urn ++ "`"))) := by
      simp [deleteProtectedMessage, String.append_assoc]
    refine ⟨by simp [happ], by simp [happ], by simp [happ], by simp [happ], by simp [happ],
      ?_, ?_⟩
    · exact ⟨"resource \"",
        "\" cannot be deleted\nbecause it is protected. To unprotect the resource, either remove the `protect` flag from the resource in your Pulumi program and run `pulumi up`, or use the command:\n`pulumi state unprotect " ++
        (URNQuote s.old.urn ++ "`"), hmsg⟩
    · refine ⟨"resource \"" ++ (s.old.urn ++
        "\" cannot be deleted\nbecause it is protected. To unprotect the resource, either remove the `protect` flag from the resource in your Pulumi program and run `pulumi up`, or use the command:\n`"),
        " " ++ (URNQuote s.old.urn ++ "`"), ?_⟩
      rw [hmsg]
      have hlit : ("\" cannot be deleted\nbecause it is protected. To unprotect the resource, either remove the `protect` flag from the resource in your Pulumi program and run `pulumi up`, or use the command:\n`pulumi state unprotect " : String)
          = "\" cannot be deleted\nbecause it is protected. To unprotect the resource, either remove the `protect` flag from the resource in your Pulumi program and run `pulumi up`, or use the command:\n`" ++
            ("pulumi state unprotect" ++ " ") := by decide
      rw [hlit]
      simp only [String.append_assoc]
  · intro hrep u
    rcases henv : env.prov with r | m
    · rcases hre : r.err with _ | e <;>
        · unfold DeleteStep.Apply
          split_ifs <;> simp_all [DeleteStep.okNoop]
    · unfold DeleteStep.Apply
      split_ifs <;> simp_all [DeleteStep.okNoop]

/-- Delete step for the C2 witness: a protected custom resource. -/
def C2w : DeleteStep :=
  { old := { State.empty with urn := "c", protect := true, custom := true, id := "x", provider := "p" }
    replacing := false, otherDeletions := [] }

/-- The same state wrapped in a replacing delete for the C2 witness. -/
def C2wr : DeleteStep := { C2w with replacing := true }

/-- C2 witness: the protected delete returns the typed error with a nil
Complete and no call, and the replacing delete on the same state does not
return that error. -/
theorem C2_witness :
    (C2w.Apply { prov := .err "unused" } false).err = some (.deleteProtected "c") ∧
    (C2w.Apply { prov := .err "unused" } false).complete = false ∧
    (C2w.Apply { prov := .err "unused" } false).calls = [] ∧
    (C2wr.Apply { prov := .ok { rst := .ok, err := none } } false).err
      ≠ some (.deleteProtected "c") := by
  have h1 := (C2_delete_protected C2w { prov := .err "unused" } false (by decide)).1 (by decide)
  have h2 := (C2_delete_protected C2wr { prov := .ok { rst := .ok, err := none } } false
    (by decide)).2 (by decide) "c"
  exact ⟨h1.2.2.1, h1.2.1, h1.2.2.2.1, h2⟩

/-- C3 (amended): provided the protect check passes (replacing or not
protected), every skip condition of the delete matrix (preview, External,
RetainOnDelete, DeletedWith in the deletion set) yields status OK with no
error and no provider call; and provided provider resolution succeeds, the
Delete RPC with the documented arguments is performed exactly when none of
the skip conditions hold and the old state is Custom. -/
theorem C3_delete_matrix (s : DeleteStep) (env : DeleteEnv) (preview : Bool)
    (hp : s.replacing = true ∨ s.old.protect = false) :
    ((preview = true ∨ s.old.external = true ∨ s.old.retainOnDelete = true ∨
        isDeletedWith s.old.deletedWith s.otherDeletions = true) →
      (s.Apply env preview).calls = [] ∧
      (s.Apply env preview).status = .ok ∧
      (s.Apply env preview).err = none ∧
      (s.Apply env preview).complete = true) ∧
    (∀ r, env.prov = .ok r →
      ((s.Apply env preview).calls
          = [ProvCall.deleteCall s.old.urn s.old.id s.old.inputs s.old.outputs
              s.old.customTimeouts.delete]
        ↔ (preview = false ∧ s.old.external = false ∧ s.old.retainOnDelete = false ∧
            isDeletedWith s.old.deletedWith s.otherDeletions = false ∧ s.old.custom = true))) := by
  constructor
  · intro hcond
    unfold DeleteStep.Apply
    rcases henv : env.prov with r | m
    · rcases hre : r.err with _ | e <;>
        · split_ifs <;> simp_all [DeleteStep.okNoop]
    · split_ifs <;> simp_all [DeleteStep.okNoop]
  · intro r henv
    unfold DeleteStep.Apply
    rcases hre : r.err with _ | e <;>
      · split_ifs <;> simp_all [DeleteStep.okNoop]

/-- Delete step for the C3 witness: an unprotected custom resource. -/
def C3w : DeleteStep :=
  { old := { State.empty with urn := "d", custom := true, id := "x", provider := "p", inputs := [("a", 1)], outputs := [("b", 2)] }
    replacing := false, otherDeletions := [("q", true)] }

/-- Delete environment for the C3 witness: a successful Delete. -/
def C3wEnv : DeleteEnv := { prov := .ok { rst := .ok, err := none } }

/-- C3 witness: in preview no call is performed and the step succeeds, and
outside preview the Delete RPC is performed with the documented
arguments. -/
theorem C3_witness :
    ((C3w.Apply C3wEnv true).calls = [] ∧ (C3w.Apply C3wEnv true).err = none) ∧
    (C3w.Apply C3wEnv false).calls
      = [ProvCall.deleteCall "d" "x" [("a", 1)] [("b", 2)] 0] := by
  have h1 := (C3_delete_matrix C3w C3wEnv true (Or.inr (by decide))).1 (Or.inl rfl)
  have h2 := ((C3_delete_matrix C3w C3wEnv false (Or.inr (by decide))).2
    { rst := .ok, err := none } rfl).mpr (by decide)
  exact ⟨⟨h1.1, h1.2.2.1⟩, h2⟩

/-- Delete step for the C3 counterexample: a protected resource. -/
def C3ctr : DeleteStep :=
  { old := { State.empty with urn := "urn:c", protect := true, custom := true, id := "x", provider := "p" }
    replacing := false, otherDeletions := [] }

/-- C3 counterexample: in preview a non-replacing delete of a protected
resource returns the DeleteProtected error, refuting the claim that the
preview row returns status OK with no error. -/
theorem C3_counterexample :
    (C3ctr.Apply { prov := .err "unused" } true).err = some (.deleteProtected "urn:c") := by
  decide

/-- C8: for a non-planned ImportStep on a custom resource whose Read, input
processing and Check succeed and whose post-Check diff is non-empty,
Apply(true) returns status OK, a non-nil Complete and no error while
emitting the streaming warning that the import will fail; Apply(false)
returns the mismatch error; and in import-replacement mode the original
state is marked for deletion exactly when no error is returned. -/
theorem C8_import_mismatch (s : ImportStep) (env : ImportEnv) (p : ImportProv)
    (rid : String) (ins outs cins pins : PropertyMap) (d : DiffResult) (now : Nat)
    (hplanned : s.planned = false)
    (hcustom : s.new.custom = true)
    (hprov : env.prov = .ok p)
    (hread : p.read = { result := { id := rid, inputs := some ins, outputs := some outs }
                        rst := .ok, err := none })
    (hpi : env.processIgnore = .ok pins)
    (hcheck : p.check = { inputs := cins, failures := [], err := none })
    (hdiff : env.diff = .ok d)
    (hchanges : d.changes ≠ .diffNone) :
    ((s.Apply env true now).status = .ok ∧
     (s.Apply env true now).complete = true ∧
     (s.Apply env true now).err = none ∧
     (s.Apply env true now).warnings
       = ["inputs to import do not match the existing resource; importing this resource will fail"] ∧
     (s.Apply env true now).original
       = (if s.replacing then s.original.map (fun o => { o with delete := true })
          else s.original)) ∧
    ((s.Apply env false now).err
       = some (.message "inputs to import do not match the existing resource") ∧
     (s.Apply env false now).complete = true ∧
     (s.Apply env false now).original = s.original) := by
  constructor
  · rcases eq_or_ne rid "" with h | h <;>
      simp [ImportStep.Apply, ImportStep.common, ImportStep.adoptionBranch, ImportStep.fail,
        issueCheckErrors, hplanned, hcustom, hprov, hread, hpi, hcheck, hdiff, hchanges, h]
  · rcases eq_or_ne rid "" with h | h <;>
      simp [ImportStep.Apply, ImportStep.common, ImportStep.adoptionBranch, ImportStep.fail,
        issueCheckErrors, hplanned, hcustom, hprov, hread, hpi, hcheck, hdiff, hchanges, h]

/-- ImportStep for the C8 witness: an import-replacement adoption. -/
def C8w : ImportStep :=
  { original := some { State.empty with urn := "m0", id := "oid" }
    new := { State.empty with urn := "m", custom := true, id := "mid", provider := "p" }
    replacing := true, planned := false, ignoreChanges := [], randomSeed := [1] }

/-- Environment for the C8 witness: a successful Read and Check with a
non-empty diff. -/
def C8wEnv : ImportEnv :=
  { oldsHasURN := false, parentIsRootStack := true, newsHasParent := false
    urnTypePackage := "aws", plannedProviderPkg := "aws", deployImports := []
    prov := .ok { read := { result := { id := "", inputs := some [("a", 1)], outputs := some [("a", 1)] }, rst := .ok, err := none }
                  check := { inputs := [("a", 2)], failures := [], err := none } }
    processIgnore := .ok [("a", 2)]
    diff := .ok { changes := .diffSome, changedKeys := ["a"] } }

/-- C8 witness: the preview run warns and marks the original for deletion,
the non-preview run fails with the mismatch error and leaves the original
untouched. -/
theorem C8_witness :
    (C8w.Apply C8wEnv true 9).err = none ∧
    (C8w.Apply C8wEnv true 9).warnings
      = ["inputs to import do not match the existing resource; importing this resource will fail"] ∧
    (C8w.Apply C8wEnv true 9).original
      = some { State.empty with urn := "m0", id := "oid", delete := true } ∧
    (C8w.Apply C8wEnv false 9).err
      = some (.message "inputs to import do not match the existing resource") ∧
    (C8w.Apply C8wEnv false 9).original = some { State.empty with urn := "m0", id := "oid" } := by
  have h := C8_import_mismatch C8w C8wEnv
    { read := { result := { id := "", inputs := some [("a", 1)], outputs := some [("a", 1)] }, rst := .ok, err := none }
      check := { inputs := [("a", 2)], failures := [], err := none } }
    "" [("a", 1)] [("a", 1)] [("a", 2)] [("a", 2)]
    { changes := .diffSome, changedKeys := ["a"] } 9
    (by decide) (by decide) rfl rfl rfl rfl rfl (by decide)
  refine ⟨h.1.2.2.1, h.1.2.2.2.1, ?_, h.2.1, h.2.2.2⟩
  have h5 := h.1.2.2.2.2
  simpa using h5

end Pulumi


